import Mathlib

/-!
Verification of the compression middleware adapter (compression.go).

The adapter dispatches on an algorithm tag, translates an abstract
compression level into each codec library's native level, and wraps a
byte sink or source with the corresponding encoder or decoder.  The six
codec libraries themselves (klauspost gzip, zstd, s2, snappy, zlib,
flate) are external dependencies; they are modelled here as parameters
(`Codec`, `CodecEnv`) exposing exactly the operations the adapter calls:
streaming compression of a sequence of written chunks, construction-time
header validation for the header-validating decoders, and full
decompression.  A codec is `RoundTrip`-correct when decompressing its
own output recovers the concatenation of the written chunks; theorems
about the full pipeline take that correctness as a hypothesis and are
instantiated on a concrete reference environment in the witnesses.

Go panics in the adapter (unsupported algorithm, failed codec
construction) are modelled as `Except.error` with the panic message.
-/

namespace Compression

/-- A Go byte, as a natural number. -/
abbrev Byte := Nat

/-- Go type `Algorithm int`. -/
abbrev Algorithm := Int

/-- Gzip compression (enum value 0, from the iota block). -/
def Gzip : Algorithm := 0

/-- Zstd compression (enum value 1). -/
def Zstd : Algorithm := 1

/-- S2 compression (enum value 2). -/
def S2 : Algorithm := 2

/-- Snappy compression (enum value 3). -/
def Snappy : Algorithm := 3

/-- Zlib compression (enum value 4). -/
def Zlib : Algorithm := 4

/-- Flate compression, raw deflate (enum value 5). -/
def Flate : Algorithm := 5

/-- Go type `Level int`. -/
abbrev Level := Int

/-- Fastest compression level (enum value 0, from the iota block). -/
def Fastest : Level := 0

/-- Default balanced compression level (enum value 1). -/
def Default : Level := 1

/-- Better compression level (enum value 2). -/
def Better : Level := 2

/-- Best compression level (enum value 3). -/
def Best : Level := 3

/-- The `Middleware` struct: an algorithm and a level, both fixed at
construction. -/
structure Middleware where
  algorithm : Algorithm
  level : Level
deriving DecidableEq

/-- Go type `Option func(*Middleware)`: a configuration mutator applied
by `New`.  Renamed to avoid clashing with the Lean `Option` type. -/
def MwOption := Middleware → Middleware

/-- `WithLevel` sets the compression level field. -/
def WithLevel (level : Level) : MwOption := fun m => { m with level := level }

/-- `New` creates a middleware with the given algorithm, level
defaulting to `Default`, then applies the options in order.  It is total:
construction never fails and performs no validation of the algorithm. -/
def New (algorithm : Algorithm) (opts : List MwOption) : Middleware :=
  opts.foldl (fun m opt => opt m) { algorithm := algorithm, level := Default }

/-! Native level constants of the external codec libraries (klauspost
gzip, zlib and flate mirror the standard flate constants). -/

namespace gzip

/-- gzip.NoCompression. -/
def NoCompression : Int := 0

/-- gzip.BestSpeed. -/
def BestSpeed : Int := 1

/-- gzip.BestCompression. -/
def BestCompression : Int := 9

/-- gzip.DefaultCompression. -/
def DefaultCompression : Int := -1

/-- gzip.StatelessCompression, the lowest level klauspost gzip accepts. -/
def StatelessCompression : Int := -3

end gzip

namespace zlib

/-- zlib.NoCompression. -/
def NoCompression : Int := 0

/-- zlib.BestSpeed. -/
def BestSpeed : Int := 1

/-- zlib.BestCompression. -/
def BestCompression : Int := 9

/-- zlib.DefaultCompression. -/
def DefaultCompression : Int := -1

/-- zlib.HuffmanOnly, the lowest level klauspost zlib accepts. -/
def HuffmanOnly : Int := -2

end zlib

namespace flate

/-- flate.NoCompression. -/
def NoCompression : Int := 0

/-- flate.BestSpeed. -/
def BestSpeed : Int := 1

/-- flate.BestCompression. -/
def BestCompression : Int := 9

/-- flate.DefaultCompression. -/
def DefaultCompression : Int := -1

/-- flate.HuffmanOnly, the lowest level klauspost flate accepts. -/
def HuffmanOnly : Int := -2

end flate

namespace zstd

/-- zstd.SpeedFastest (encoder level 1). -/
def SpeedFastest : Int := 1

/-- zstd.SpeedDefault (encoder level 2). -/
def SpeedDefault : Int := 2

/-- zstd.SpeedBetterCompression (encoder level 3). -/
def SpeedBetterCompression : Int := 3

/-- zstd.SpeedBestCompression (encoder level 4). -/
def SpeedBestCompression : Int := 4

end zstd

/-! Level translation, one function per codec, from the switch
statements in createGzipWriter, createZstdWriter, createZlibWriter and
createFlateWriter.  Go declares `var level int` before the switch, so a
level matching no case leaves the native level at the zero value 0. -/

/-- Native gzip level computed by the switch in createGzipWriter. -/
def Middleware.gzipLevel (m : Middleware) : Int :=
  if m.level = Fastest then gzip.BestSpeed
  else if m.level = Default then gzip.DefaultCompression
  else if m.level = Better then gzip.BestCompression - 1
  else if m.level = Best then gzip.BestCompression
  else 0

/-- Native zstd encoder level computed by the switch in
createZstdWriter; the zero value 0 is the zstd speedNotSet level. -/
def Middleware.zstdLevel (m : Middleware) : Int :=
  if m.level = Fastest then zstd.SpeedFastest
  else if m.level = Default then zstd.SpeedDefault
  else if m.level = Better then zstd.SpeedBetterCompression
  else if m.level = Best then zstd.SpeedBestCompression
  else 0

/-- Native zlib level computed by the switch in createZlibWriter. -/
def Middleware.zlibLevel (m : Middleware) : Int :=
  if m.level = Fastest then zlib.BestSpeed
  else if m.level = Default then zlib.DefaultCompression
  else if m.level = Better then zlib.BestCompression - 1
  else if m.level = Best then zlib.BestCompression
  else 0

/-- Native flate level computed by the switch in createFlateWriter. -/
def Middleware.flateLevel (m : Middleware) : Int :=
  if m.level = Fastest then flate.BestSpeed
  else if m.level = Default then flate.DefaultCompression
  else if m.level = Better then flate.BestCompression - 1
  else if m.level = Best then flate.BestCompression
  else 0

/-! Validation performed by the external codec constructors on the
native level, as implemented by the klauspost libraries. -/

/-- gzip.NewWriterLevel accepts levels from StatelessCompression to
BestCompression. -/
def gzipNewWriterLevelOk (level : Int) : Bool :=
  gzip.StatelessCompression ≤ level && level ≤ gzip.BestCompression

/-- zlib.NewWriterLevel accepts levels from HuffmanOnly to
BestCompression. -/
def zlibNewWriterLevelOk (level : Int) : Bool :=
  zlib.HuffmanOnly ≤ level && level ≤ zlib.BestCompression

/-- flate.NewWriter accepts levels from HuffmanOnly to
BestCompression. -/
def flateNewWriterOk (level : Int) : Bool :=
  flate.HuffmanOnly ≤ level && level ≤ flate.BestCompression

/-- zstd.WithEncoderLevel accepts the four named encoder levels 1..4 and
rejects speedNotSet and anything outside. -/
def zstdEncoderLevelOk (level : Int) : Bool :=
  zstd.SpeedFastest ≤ level && level ≤ zstd.SpeedBestCompression

/-- The writer wrapper returned by `Writer`: which codec encoder it
holds and, where the codec takes one, the native level it was
constructed with.  The s2 and snappy writers are constructed without any
level parameter. -/
inductive CWriter where
  | gzip (level : Int)
  | zstd (level : Int)
  | s2
  | snappy
  | zlib (level : Int)
  | flate (level : Int)
deriving DecidableEq

/-- The reader wrapper returned by `Reader`: which codec decoder it
holds. -/
inductive CReader where
  | gzip
  | zstd
  | s2
  | snappy
  | zlib
  | flate
deriving DecidableEq

/-- createGzipWriter: translate the level, construct the encoder, panic
if the codec rejects the level. -/
def Middleware.createGzipWriter (m : Middleware) : Except String CWriter :=
  let level := m.gzipLevel
  if gzipNewWriterLevelOk level then .ok (.gzip level)
  else .error "failed to create gzip writer"

/-- createZstdWriter: translate the level, construct the encoder, panic
if the codec rejects the encoder level. -/
def Middleware.createZstdWriter (m : Middleware) : Except String CWriter :=
  let level := m.zstdLevel
  if zstdEncoderLevelOk level then .ok (.zstd level)
  else .error "failed to create zstd writer"

/-- createS2Writer: s2.NewWriter takes no level and never fails. -/
def Middleware.createS2Writer (_m : Middleware) : Except String CWriter :=
  .ok .s2

/-- createSnappyWriter: snappy.NewBufferedWriter takes no level and
never fails. -/
def Middleware.createSnappyWriter (_m : Middleware) : Except String CWriter :=
  .ok .snappy

/-- createZlibWriter: translate the level, construct the encoder, panic
if the codec rejects the level. -/
def Middleware.createZlibWriter (m : Middleware) : Except String CWriter :=
  let level := m.zlibLevel
  if zlibNewWriterLevelOk level then .ok (.zlib level)
  else .error "failed to create zlib writer"

/-- createFlateWriter: translate the level, construct the encoder, panic
if the codec rejects the level. -/
def Middleware.createFlateWriter (m : Middleware) : Except String CWriter :=
  let level := m.flateLevel
  if flateNewWriterOk level then .ok (.flate level)
  else .error "failed to create flate writer"

/-- `Writer`: dispatch on the algorithm tag; the default branch panics
with an unsupported algorithm message. -/
def Middleware.Writer (m : Middleware) : Except String CWriter :=
  if m.algorithm = Gzip then m.createGzipWriter
  else if m.algorithm = Zstd then m.createZstdWriter
  else if m.algorithm = S2 then m.createS2Writer
  else if m.algorithm = Snappy then m.createSnappyWriter
  else if m.algorithm = Zlib then m.createZlibWriter
  else if m.algorithm = Flate then m.createFlateWriter
  else .error "unsupported compression algorithm"

/-- Interface of one external codec library, restricted to the
operations the adapter uses.  `compress` is the observable effect of one
writer session: the bytes left in the sink after the chunks are written
in order and the writer is closed; it may depend on the native level and
on the chunk boundaries.  `headerOk` is the construction-time header
check performed by the header-validating reader constructors.
`decompress` is the result of draining the reader; `none` is a decode
failure. -/
structure Codec where
  compress : Int → List (List Byte) → List Byte
  headerOk : List Byte → Bool
  decompress : List Byte → Option (List Byte)

/-- A codec is round-trip correct when any output it produces passes its
own header check and decompresses to the concatenation of the written
chunks, at every native level. -/
def Codec.RoundTrip (c : Codec) : Prop :=
  ∀ level chunks, c.headerOk (c.compress level chunks) = true ∧
    c.decompress (c.compress level chunks) = some chunks.flatten

/-- The six external codec libraries the adapter links against. -/
structure CodecEnv where
  gzip : Codec
  zstd : Codec
  s2 : Codec
  snappy : Codec
  zlib : Codec
  flate : Codec

/-- All six codecs are round-trip correct. -/
def CodecEnv.Correct (env : CodecEnv) : Prop :=
  env.gzip.RoundTrip ∧ env.zstd.RoundTrip ∧ env.s2.RoundTrip ∧
    env.snappy.RoundTrip ∧ env.zlib.RoundTrip ∧ env.flate.RoundTrip

/-- createGzipReader: gzip.NewReader parses the header at construction
and the adapter panics when that fails. -/
def Middleware.createGzipReader (_m : Middleware) (env : CodecEnv)
    (src : List Byte) : Except String CReader :=
  if env.gzip.headerOk src then .ok .gzip
  else .error "failed to create gzip reader"

/-- createZstdReader: zstd.NewReader validates lazily on first read, so
construction succeeds. -/
def Middleware.createZstdReader (_m : Middleware) (_env : CodecEnv)
    (_src : List Byte) : Except String CReader :=
  .ok .zstd

/-- createS2Reader: s2.NewReader never fails at construction. -/
def Middleware.createS2Reader (_m : Middleware) (_env : CodecEnv)
    (_src : List Byte) : Except String CReader :=
  .ok .s2

/-- createSnappyReader: snappy.NewReader never fails at construction. -/
def Middleware.createSnappyReader (_m : Middleware) (_env : CodecEnv)
    (_src : List Byte) : Except String CReader :=
  .ok .snappy

/-- createZlibReader: zlib.NewReader parses the header at construction
and the adapter panics when that fails. -/
def Middleware.createZlibReader (_m : Middleware) (env : CodecEnv)
    (src : List Byte) : Except String CReader :=
  if env.zlib.headerOk src then .ok .zlib
  else .error "failed to create zlib reader"

/-- createFlateReader: flate.NewReader never fails at construction. -/
def Middleware.createFlateReader (_m : Middleware) (_env : CodecEnv)
    (_src : List Byte) : Except String CReader :=
  .ok .flate

/-- `Reader`: dispatch on the algorithm tag; the default branch panics
with an unsupported algorithm message. -/
def Middleware.Reader (m : Middleware) (env : CodecEnv) (src : List Byte) :
    Except String CReader :=
  if m.algorithm = Gzip then m.createGzipReader env src
  else if m.algorithm = Zstd then m.createZstdReader env src
  else if m.algorithm = S2 then m.createS2Reader env src
  else if m.algorithm = Snappy then m.createSnappyReader env src
  else if m.algorithm = Zlib then m.createZlibReader env src
  else if m.algorithm = Flate then m.createFlateReader env src
  else .error "unsupported compression algorithm"

/-- A call to the `Writer` method, with the receiver after the call: the
method body only reads `m.algorithm` and `m.level` and never assigns a
field, so the receiver is returned unchanged. -/
def Middleware.WriterCall (m : Middleware) :
    Except String CWriter × Middleware :=
  (m.Writer, m)

/-- A call to the `Reader` method, with the receiver after the call: the
method body only reads `m.algorithm` and never assigns a field, so the
receiver is returned unchanged. -/
def Middleware.ReaderCall (m : Middleware) (env : CodecEnv)
    (src : List Byte) : Except String CReader × Middleware :=
  (m.Reader env src, m)

/-- The sink contents of one complete writer session: the chunks written
in order through the wrapper, then Close. -/
def CWriter.run (env : CodecEnv) : CWriter → List (List Byte) → List Byte
  | .gzip level, chunks => env.gzip.compress level chunks
  | .zstd level, chunks => env.zstd.compress level chunks
  | .s2, chunks => env.s2.compress 0 chunks
  | .snappy, chunks => env.snappy.compress 0 chunks
  | .zlib level, chunks => env.zlib.compress level chunks
  | .flate level, chunks => env.flate.compress level chunks

/-- Draining the reader wrapper: all decompressed bytes, or a decode
failure. -/
def CReader.readAll (env : CodecEnv) (src : List Byte) :
    CReader → Option (List Byte)
  | .gzip => env.gzip.decompress src
  | .zstd => env.zstd.decompress src
  | .s2 => env.s2.decompress src
  | .snappy => env.snappy.decompress src
  | .zlib => env.zlib.decompress src
  | .flate => env.flate.decompress src

/-- One compression session: wrap a sink with `Writer`, write the chunks
in order, Close, and return the sink contents; an adapter panic aborts
the session. -/
def sessionCompress (env : CodecEnv) (m : Middleware)
    (chunks : List (List Byte)) : Except String (List Byte) :=
  match m.Writer with
  | .error e => .error e
  | .ok w => .ok (w.run env chunks)

/-- A full round trip: compress the chunks, then wrap the sink contents
with `Reader` and drain it; an adapter panic aborts the session. -/
def sessionRoundTrip (env : CodecEnv) (m : Middleware)
    (chunks : List (List Byte)) : Except String (Option (List Byte)) :=
  match sessionCompress env m chunks with
  | .error e => .error e
  | .ok sink =>
    match m.Reader env sink with
    | .error e => .error e
    | .ok r => .ok (r.readAll env sink)

/-! A concrete reference codec environment used to instantiate the
hypotheses of the theorems below: framed identity codecs with a two-byte
magic header for the header-validating libraries, and bare identity
codecs for the rest. -/

/-- An identity codec framed by a two-byte magic header, standing in for
a header-validating external library in witnesses. -/
def framedCodec (b0 b1 : Byte) : Codec where
  compress := fun _ chunks => b0 :: b1 :: chunks.flatten
  headerOk := fun src =>
    match src with
    | a :: b :: _ => a = b0 && b = b1
    | _ => false
  decompress := fun src =>
    match src with
    | a :: b :: rest => if a = b0 && b = b1 then some rest else none
    | _ => none

/-- A bare identity codec, standing in for a non-validating external
library in witnesses. -/
def plainCodec : Codec where
  compress := fun _ chunks => chunks.flatten
  headerOk := fun _ => true
  decompress := fun src => some src

/-- The reference environment: gzip and zlib get their standard magic
bytes, the other codecs are bare identities. -/
def refEnv : CodecEnv where
  gzip := framedCodec 31 139
  zstd := plainCodec
  s2 := plainCodec
  snappy := plainCodec
  zlib := framedCodec 120 156
  flate := plainCodec

theorem framedCodec_roundTrip (b0 b1 : Byte) : (framedCodec b0 b1).RoundTrip := by
  intro level chunks
  simp [framedCodec]

theorem plainCodec_roundTrip : plainCodec.RoundTrip := by
  intro level chunks
  simp [plainCodec]

theorem refEnv_correct : refEnv.Correct :=
  ⟨framedCodec_roundTrip 31 139, plainCodec_roundTrip, plainCodec_roundTrip,
    plainCodec_roundTrip, framedCodec_roundTrip 120 156, plainCodec_roundTrip⟩

/-- Generic round-trip argument: when `Writer` yields a wrapper that
runs some round-trip correct codec and `Reader` accepts anything passing
that codec's header check, yielding a wrapper that drains through the
same codec, a full session recovers the concatenated chunks. -/
theorem sessionRoundTrip_of (env : CodecEnv) (m : Middleware) (c : Codec)
    (w : CWriter) (r : CReader) (lvl : Int)
    (hw : m.Writer = .ok w)
    (hrun : ∀ ch, w.run env ch = c.compress lvl ch)
    (hreader : ∀ src, c.headerOk src = true → m.Reader env src = .ok r)
    (hread : ∀ src, r.readAll env src = c.decompress src)
    (hc : c.RoundTrip) (chunks : List (List Byte)) :
    sessionRoundTrip env m chunks = .ok (some chunks.flatten) := by
  have h1 := (hc lvl chunks).1
  have h2 := (hc lvl chunks).2
  have hr : m.Reader env (c.compress lvl chunks) = .ok r := hreader _ h1
  simp [sessionRoundTrip, sessionCompress, hw, hrun, hr, hread, h2]

/-- A middleware whose algorithm field is Gzip round-trips whenever the
gzip library accepts the translated level. -/
theorem gzip_sessionRoundTrip (env : CodecEnv) (hg : env.gzip.RoundTrip)
    (m : Middleware) (hm : m.algorithm = Gzip)
    (hok : gzipNewWriterLevelOk m.gzipLevel = true)
    (chunks : List (List Byte)) :
    sessionRoundTrip env m chunks = .ok (some chunks.flatten) := by
  refine sessionRoundTrip_of env m env.gzip (.gzip m.gzipLevel) .gzip
    m.gzipLevel ?_ (fun _ => rfl) ?_ (fun _ => rfl) hg chunks
  · simp [Middleware.Writer, Middleware.createGzipWriter, hm,
      Gzip, Zstd, S2, Snappy, Zlib, Flate, hok]
  · intro src h
    simp [Middleware.Reader, Middleware.createGzipReader, hm,
      Gzip, Zstd, S2, Snappy, Zlib, Flate, h]

/-- A middleware whose algorithm field is Zstd round-trips whenever the
zstd library accepts the translated encoder level. -/
theorem zstd_sessionRoundTrip (env : CodecEnv) (hz : env.zstd.RoundTrip)
    (m : Middleware) (hm : m.algorithm = Zstd)
    (hok : zstdEncoderLevelOk m.zstdLevel = true)
    (chunks : List (List Byte)) :
    sessionRoundTrip env m chunks = .ok (some chunks.flatten) := by
  refine sessionRoundTrip_of env m env.zstd (.zstd m.zstdLevel) .zstd
    m.zstdLevel ?_ (fun _ => rfl) ?_ (fun _ => rfl) hz chunks
  · simp [Middleware.Writer, Middleware.createZstdWriter, hm,
      Gzip, Zstd, S2, Snappy, Zlib, Flate, hok]
  · intro src _h
    simp [Middleware.Reader, Middleware.createZstdReader, hm,
      Gzip, Zstd, S2, Snappy, Zlib, Flate]

/-- A middleware whose algorithm field is S2 round-trips at every level:
the s2 writer takes no level. -/
theorem s2_sessionRoundTrip (env : CodecEnv) (hs : env.s2.RoundTrip)
    (m : Middleware) (hm : m.algorithm = S2)
    (chunks : List (List Byte)) :
    sessionRoundTrip env m chunks = .ok (some chunks.flatten) := by
  refine sessionRoundTrip_of env m env.s2 .s2 .s2 0
    ?_ (fun _ => rfl) ?_ (fun _ => rfl) hs chunks
  · simp [Middleware.Writer, Middleware.createS2Writer, hm,
      Gzip, Zstd, S2, Snappy, Zlib, Flate]
  · intro src _h
    simp [Middleware.Reader, Middleware.createS2Reader, hm,
      Gzip, Zstd, S2, Snappy, Zlib, Flate]

/-- A middleware whose algorithm field is Snappy round-trips at every
level: the snappy writer takes no level. -/
theorem snappy_sessionRoundTrip (env : CodecEnv) (hn : env.snappy.RoundTrip)
    (m : Middleware) (hm : m.algorithm = Snappy)
    (chunks : List (List Byte)) :
    sessionRoundTrip env m chunks = .ok (some chunks.flatten) := by
  refine sessionRoundTrip_of env m env.snappy .snappy .snappy 0
    ?_ (fun _ => rfl) ?_ (fun _ => rfl) hn chunks
  · simp [Middleware.Writer, Middleware.createSnappyWriter, hm,
      Gzip, Zstd, S2, Snappy, Zlib, Flate]
  · intro src _h
    simp [Middleware.Reader, Middleware.createSnappyReader, hm,
      Gzip, Zstd, S2, Snappy, Zlib, Flate]

/-- A middleware whose algorithm field is Zlib round-trips whenever the
zlib library accepts the translated level. -/
theorem zlib_sessionRoundTrip (env : CodecEnv) (hzl : env.zlib.RoundTrip)
    (m : Middleware) (hm : m.algorithm = Zlib)
    (hok : zlibNewWriterLevelOk m.zlibLevel = true)
    (chunks : List (List Byte)) :
    sessionRoundTrip env m chunks = .ok (some chunks.flatten) := by
  refine sessionRoundTrip_of env m env.zlib (.zlib m.zlibLevel) .zlib
    m.zlibLevel ?_ (fun _ => rfl) ?_ (fun _ => rfl) hzl chunks
  · simp [Middleware.Writer, Middleware.createZlibWriter, hm,
      Gzip, Zstd, S2, Snappy, Zlib, Flate, hok]
  · intro src h
    simp [Middleware.Reader, Middleware.createZlibReader, hm,
      Gzip, Zstd, S2, Snappy, Zlib, Flate, h]

/-- A middleware whose algorithm field is Flate round-trips whenever the
flate library accepts the translated level. -/
theorem flate_sessionRoundTrip (env : CodecEnv) (hf : env.flate.RoundTrip)
    (m : Middleware) (hm : m.algorithm = Flate)
    (hok : flateNewWriterOk m.flateLevel = true)
    (chunks : List (List Byte)) :
    sessionRoundTrip env m chunks = .ok (some chunks.flatten) := by
  refine sessionRoundTrip_of env m env.flate (.flate m.flateLevel) .flate
    m.flateLevel ?_ (fun _ => rfl) ?_ (fun _ => rfl) hf chunks
  · simp [Middleware.Writer, Middleware.createFlateWriter, hm,
      Gzip, Zstd, S2, Snappy, Zlib, Flate, hok]
  · intro src _h
    simp [Middleware.Reader, Middleware.createFlateReader, hm,
      Gzip, Zstd, S2, Snappy, Zlib, Flate]

/-- Any of the six algorithms at any of the four enumerated levels
round-trips, given that the six codec libraries are round-trip
correct. -/
theorem sessionRoundTrip_enum (env : CodecEnv) (hc : env.Correct)
    (a : Algorithm)
    (ha : a = Gzip ∨ a = Zstd ∨ a = S2 ∨ a = Snappy ∨ a = Zlib ∨ a = Flate)
    (l : Level)
    (hl : l = Fastest ∨ l = Default ∨ l = Better ∨ l = Best)
    (chunks : List (List Byte)) :
    sessionRoundTrip env (Middleware.mk a l) chunks =
      .ok (some chunks.flatten) := by
  obtain ⟨hg, hz, hs, hn, hzl, hf⟩ := hc
  rcases ha with rfl | rfl | rfl | rfl | rfl | rfl
  · exact gzip_sessionRoundTrip env hg (Middleware.mk Gzip l) rfl
      (by rcases hl with rfl | rfl | rfl | rfl <;> decide) chunks
  · exact zstd_sessionRoundTrip env hz (Middleware.mk Zstd l) rfl
      (by rcases hl with rfl | rfl | rfl | rfl <;> decide) chunks
  · exact s2_sessionRoundTrip env hs (Middleware.mk S2 l) rfl chunks
  · exact snappy_sessionRoundTrip env hn (Middleware.mk Snappy l) rfl chunks
  · exact zlib_sessionRoundTrip env hzl (Middleware.mk Zlib l) rfl
      (by rcases hl with rfl | rfl | rfl | rfl <;> decide) chunks
  · exact flate_sessionRoundTrip env hf (Middleware.mk Flate l) rfl
      (by rcases hl with rfl | rfl | rfl | rfl <;> decide) chunks

/-- Applying a list of WithLevel options never changes the algorithm
field. -/
theorem New_withLevels_algorithm (a : Algorithm) (levels : List Level) :
    (New a (levels.map WithLevel)).algorithm = a := by
  have key : ∀ (ls : List Level) (m : Middleware),
      ((ls.map WithLevel).foldl (fun m opt => opt m) m).algorithm =
        m.algorithm := by
    intro ls
    induction ls with
    | nil => intro m; rfl
    | cons x xs ih => intro m; simpa [WithLevel] using ih (WithLevel x m)
  exact key levels _

/-- Claim C1: for every algorithm among the six enumerated values and
every byte sequence S, the empty sequence included, writing S through
the writer returned by Writer, then Close, then reading the sink
contents through the reader returned by Reader yields exactly S,
provided the six external codec libraries are round-trip correct. -/
theorem roundtrip_six_algorithms (env : CodecEnv) (hc : env.Correct)
    (a : Algorithm)
    (ha : a = Gzip ∨ a = Zstd ∨ a = S2 ∨ a = Snappy ∨ a = Zlib ∨ a = Flate)
    (S : List Byte) :
    sessionRoundTrip env (New a []) [S] = .ok (some S) := by
  have h := sessionRoundTrip_enum env hc a ha Default (Or.inr (Or.inl rfl)) [S]
  simpa [New] using h

/-- Witness for C1: a concrete empty-input round trip through the gzip
branch of the adapter over the reference codec environment. -/
theorem roundtrip_six_algorithms_witness :
    sessionRoundTrip refEnv (New Gzip []) [[]] = .ok (some []) :=
  roundtrip_six_algorithms refEnv refEnv_correct Gzip (Or.inl rfl) []

/-- Claim C2: New accepts any algorithm value without validation, and on
a value outside the six enumerated ones both Writer and Reader fail with
the unsupported compression algorithm panic instead of falling back to a
default codec. -/
theorem unsupported_algorithm_fails_at_wrap (a : Algorithm)
    (ha : ¬(a = Gzip ∨ a = Zstd ∨ a = S2 ∨ a = Snappy ∨ a = Zlib ∨ a = Flate))
    (levels : List Level) (env : CodecEnv) (src : List Byte) :
    (New a (levels.map WithLevel)).algorithm = a ∧
    (New a (levels.map WithLevel)).Writer =
      .error "unsupported compression algorithm" ∧
    (New a (levels.map WithLevel)).Reader env src =
      .error "unsupported compression algorithm" := by
  push_neg at ha
  obtain ⟨h1, h2, h3, h4, h5, h6⟩ := ha
  have halg := New_withLevels_algorithm a levels
  refine ⟨halg, ?_, ?_⟩
  · simp [Middleware.Writer, halg, h1, h2, h3, h4, h5, h6]
  · simp [Middleware.Reader, halg, h1, h2, h3, h4, h5, h6]

/-- Witness for C2: algorithm value 6 is accepted at construction and
rejected by Writer and Reader. -/
theorem unsupported_algorithm_fails_at_wrap_witness :
    (New 6 ([Best].map WithLevel)).algorithm = 6 ∧
    (New 6 ([Best].map WithLevel)).Writer =
      .error "unsupported compression algorithm" ∧
    (New 6 ([Best].map WithLevel)).Reader refEnv [] =
      .error "unsupported compression algorithm" :=
  unsupported_algorithm_fails_at_wrap 6 (by decide) [Best] refEnv []

/-- Claim C3: for the header-validating codecs gzip and zlib, wrapping a
source whose bytes fail the codec header check fails at reader
construction with the corresponding panic instead of succeeding. -/
theorem corrupt_header_rejected_at_construction (env : CodecEnv)
    (src : List Byte)
    (hgz : env.gzip.headerOk src = false)
    (hzl : env.zlib.headerOk src = false) :
    (New Gzip []).Reader env src = .error "failed to create gzip reader" ∧
    (New Zlib []).Reader env src = .error "failed to create zlib reader" := by
  constructor
  · simp [Middleware.Reader, Middleware.createGzipReader, New,
      Gzip, Zstd, S2, Snappy, Zlib, Flate, hgz]
  · simp [Middleware.Reader, Middleware.createZlibReader, New,
      Gzip, Zstd, S2, Snappy, Zlib, Flate, hzl]

/-- Witness for C3: the single byte 0 is not a valid gzip or zlib
container in the reference environment and is rejected at
construction. -/
theorem corrupt_header_rejected_at_construction_witness :
    (New Gzip []).Reader refEnv [0] = .error "failed to create gzip reader" ∧
    (New Zlib []).Reader refEnv [0] = .error "failed to create zlib reader" :=
  corrupt_header_rejected_at_construction refEnv [0] (by decide) (by decide)

/-- Claim C4: for gzip, zlib and flate, Fastest translates to BestSpeed,
Default to the codec default, Better to one step below BestCompression,
and Best to BestCompression. -/
theorem abstract_level_translation (a : Algorithm) :
    ((New a [WithLevel Fastest]).gzipLevel = gzip.BestSpeed ∧
      (New a [WithLevel Default]).gzipLevel = gzip.DefaultCompression ∧
      (New a [WithLevel Better]).gzipLevel = gzip.BestCompression - 1 ∧
      (New a [WithLevel Best]).gzipLevel = gzip.BestCompression) ∧
    ((New a [WithLevel Fastest]).zlibLevel = zlib.BestSpeed ∧
      (New a [WithLevel Default]).zlibLevel = zlib.DefaultCompression ∧
      (New a [WithLevel Better]).zlibLevel = zlib.BestCompression - 1 ∧
      (New a [WithLevel Best]).zlibLevel = zlib.BestCompression) ∧
    ((New a [WithLevel Fastest]).flateLevel = flate.BestSpeed ∧
      (New a [WithLevel Default]).flateLevel = flate.DefaultCompression ∧
      (New a [WithLevel Better]).flateLevel = flate.BestCompression - 1 ∧
      (New a [WithLevel Best]).flateLevel = flate.BestCompression) :=
  ⟨⟨rfl, rfl, rfl, rfl⟩, ⟨rfl, rfl, rfl, rfl⟩, ⟨rfl, rfl, rfl, rfl⟩⟩

/-- Claim C5: for s2 and snappy the configured level is never consulted:
adapters built with any two levels return the same writer wrapper and
produce identical compressed output on the same input. -/
theorem s2_snappy_ignore_level (l1 l2 : Level) (env : CodecEnv)
    (chunks : List (List Byte)) :
    (New S2 [WithLevel l1]).Writer = (New S2 [WithLevel l2]).Writer ∧
    (New Snappy [WithLevel l1]).Writer = (New Snappy [WithLevel l2]).Writer ∧
    sessionCompress env (New S2 [WithLevel l1]) chunks =
      sessionCompress env (New S2 [WithLevel l2]) chunks ∧
    sessionCompress env (New Snappy [WithLevel l1]) chunks =
      sessionCompress env (New Snappy [WithLevel l2]) chunks :=
  ⟨rfl, rfl, rfl, rfl⟩

/-- Claim C6: New with no options yields the Default level, New with
WithLevel L yields exactly level L, the algorithm is stored as given,
and Writer and Reader calls leave the adapter unchanged. -/
theorem construction_sets_algorithm_and_level (a : Algorithm) (l : Level)
    (env : CodecEnv) (src : List Byte) :
    (New a []).algorithm = a ∧ (New a []).level = Default ∧
    (New a [WithLevel l]).algorithm = a ∧ (New a [WithLevel l]).level = l ∧
    ((New a [WithLevel l]).WriterCall).2 = New a [WithLevel l] ∧
    ((New a [WithLevel l]).ReaderCall env src).2 = New a [WithLevel l] :=
  ⟨rfl, rfl, rfl, rfl, rfl, rfl⟩

/-- Claim C7: for every algorithm among the six, writing S split into
arbitrary chunks in order and finalizing decompresses to exactly S, the
same as writing S in a single write, provided the codec libraries are
round-trip correct. -/
theorem chunked_write_equivalence (env : CodecEnv) (hc : env.Correct)
    (a : Algorithm)
    (ha : a = Gzip ∨ a = Zstd ∨ a = S2 ∨ a = Snappy ∨ a = Zlib ∨ a = Flate)
    (chunks : List (List Byte)) :
    sessionRoundTrip env (New a []) chunks = .ok (some chunks.flatten) ∧
    sessionRoundTrip env (New a []) [chunks.flatten] =
      .ok (some chunks.flatten) := by
  constructor
  · have h := sessionRoundTrip_enum env hc a ha Default
      (Or.inr (Or.inl rfl)) chunks
    simpa [New] using h
  · have h := sessionRoundTrip_enum env hc a ha Default
      (Or.inr (Or.inl rfl)) [chunks.flatten]
    simpa [New] using h

/-- Witness for C7: a two-chunk write and the corresponding single write
both decompress to the concatenation, through the s2 branch. -/
theorem chunked_write_equivalence_witness :
    sessionRoundTrip refEnv (New S2 []) [[1, 2], [3]] =
      .ok (some [1, 2, 3]) ∧
    sessionRoundTrip refEnv (New S2 []) [[1, 2, 3]] =
      .ok (some [1, 2, 3]) := by
  have h := chunked_write_equivalence refEnv refEnv_correct S2
    (Or.inr (Or.inr (Or.inl rfl))) [[1, 2], [3]]
  simpa using h

/-- Claim C8: Writer and Reader calls never mutate the adapter, and two
sequential sessions from the same adapter instance each round-trip
correctly in isolation. -/
theorem session_independence_no_mutation (env : CodecEnv) (hc : env.Correct)
    (a : Algorithm)
    (ha : a = Gzip ∨ a = Zstd ∨ a = S2 ∨ a = Snappy ∨ a = Zlib ∨ a = Flate)
    (S1 S2bytes : List Byte) (src : List Byte) :
    ((New a []).WriterCall).2 = New a [] ∧
    ((New a []).ReaderCall env src).2 = New a [] ∧
    sessionRoundTrip env (New a []) [S1] = .ok (some S1) ∧
    sessionRoundTrip env (New a []) [S2bytes] = .ok (some S2bytes) := by
  refine ⟨rfl, rfl, ?_, ?_⟩
  · have h := sessionRoundTrip_enum env hc a ha Default
      (Or.inr (Or.inl rfl)) [S1]
    simpa [New] using h
  · have h := sessionRoundTrip_enum env hc a ha Default
      (Or.inr (Or.inl rfl)) [S2bytes]
    simpa [New] using h

/-- Witness for C8: two sequential zlib sessions from one adapter over
the reference environment. -/
theorem session_independence_no_mutation_witness :
    ((New Zlib []).WriterCall).2 = New Zlib [] ∧
    ((New Zlib []).ReaderCall refEnv []).2 = New Zlib [] ∧
    sessionRoundTrip refEnv (New Zlib []) [[4]] = .ok (some [4]) ∧
    sessionRoundTrip refEnv (New Zlib []) [[5, 6]] = .ok (some [5, 6]) :=
  session_independence_no_mutation refEnv refEnv_correct Zlib
    (Or.inr (Or.inr (Or.inr (Or.inr (Or.inl rfl))))) [4] [5, 6] []

/-- Claim C9: for each of the four abstract levels, every algorithm
among the six, and every byte sequence S, the compress-then-decompress
round trip yields exactly S, provided the codec libraries are round-trip
correct. -/
theorem roundtrip_all_levels (env : CodecEnv) (hc : env.Correct)
    (a : Algorithm)
    (ha : a = Gzip ∨ a = Zstd ∨ a = S2 ∨ a = Snappy ∨ a = Zlib ∨ a = Flate)
    (l : Level)
    (hl : l = Fastest ∨ l = Default ∨ l = Better ∨ l = Best)
    (S : List Byte) :
    sessionRoundTrip env (New a [WithLevel l]) [S] = .ok (some S) := by
  have h := sessionRoundTrip_enum env hc a ha l hl [S]
  simpa [New, WithLevel] using h

/-- Witness for C9: a zlib round trip at the Best level over the
reference environment. -/
theorem roundtrip_all_levels_witness :
    sessionRoundTrip refEnv (New Zlib [WithLevel Best]) [[5]] =
      .ok (some [5]) :=
  roundtrip_all_levels refEnv refEnv_correct Zlib
    (Or.inr (Or.inr (Or.inr (Or.inr (Or.inl rfl))))) Best
    (Or.inr (Or.inr (Or.inr rfl))) [5]

/-- Claim C10: a level outside the four enumerated values falls through
the translation switch, leaving the native level at the zero value 0,
which is NoCompression for gzip, zlib and flate; the writer is still
constructed successfully with that native level. -/
theorem out_of_enum_level_defaults_to_zero (l : Level)
    (hl : ¬(l = Fastest ∨ l = Default ∨ l = Better ∨ l = Best)) :
    (New Gzip [WithLevel l]).gzipLevel = gzip.NoCompression ∧
    (New Gzip [WithLevel l]).Writer = .ok (.gzip gzip.NoCompression) ∧
    (New Zlib [WithLevel l]).zlibLevel = zlib.NoCompression ∧
    (New Zlib [WithLevel l]).Writer = .ok (.zlib zlib.NoCompression) ∧
    (New Flate [WithLevel l]).flateLevel = flate.NoCompression ∧
    (New Flate [WithLevel l]).Writer = .ok (.flate flate.NoCompression) := by
  push_neg at hl
  obtain ⟨h0, h1, h2, h3⟩ := hl
  have hgl : (Middleware.mk Gzip l).gzipLevel = gzip.NoCompression := by
    simp [Middleware.gzipLevel, gzip.NoCompression, h0, h1, h2, h3]
  have hzl : (Middleware.mk Zlib l).zlibLevel = zlib.NoCompression := by
    simp [Middleware.zlibLevel, zlib.NoCompression, h0, h1, h2, h3]
  have hfl : (Middleware.mk Flate l).flateLevel = flate.NoCompression := by
    simp [Middleware.flateLevel, flate.NoCompression, h0, h1, h2, h3]
  refine ⟨hgl, ?_, hzl, ?_, hfl, ?_⟩
  · simp [Middleware.Writer, Middleware.createGzipWriter, New, WithLevel,
      Middleware.gzipLevel, Gzip, Zstd, S2, Snappy, Zlib, Flate,
      h0, h1, h2, h3, gzipNewWriterLevelOk, gzip.NoCompression,
      gzip.StatelessCompression, gzip.BestCompression]
  · simp [Middleware.Writer, Middleware.createZlibWriter, New, WithLevel,
      Middleware.zlibLevel, Gzip, Zstd, S2, Snappy, Zlib, Flate,
      h0, h1, h2, h3, zlibNewWriterLevelOk, zlib.NoCompression,
      zlib.HuffmanOnly, zlib.BestCompression]
  · simp [Middleware.Writer, Middleware.createFlateWriter, New, WithLevel,
      Middleware.flateLevel, Gzip, Zstd, S2, Snappy, Zlib, Flate,
      h0, h1, h2, h3, flateNewWriterOk, flate.NoCompression,
      flate.HuffmanOnly, flate.BestCompression]

/-- Witness for C10: the out-of-range level 4 leaves gzip, zlib and
flate at native level 0 and still constructs the writer. -/
theorem out_of_enum_level_defaults_to_zero_witness :
    (New Gzip [WithLevel 4]).gzipLevel = gzip.NoCompression ∧
    (New Gzip [WithLevel 4]).Writer = .ok (.gzip gzip.NoCompression) ∧
    (New Zlib [WithLevel 4]).zlibLevel = zlib.NoCompression ∧
    (New Zlib [WithLevel 4]).Writer = .ok (.zlib zlib.NoCompression) ∧
    (New Flate [WithLevel 4]).flateLevel = flate.NoCompression ∧
    (New Flate [WithLevel 4]).Writer = .ok (.flate flate.NoCompression) :=
  out_of_enum_level_defaults_to_zero 4 (by decide)

end Compression
